import Mathlib

/-!
Verification of the Just-Magic SEO tool-calling backend.

This file gives a shallow embedding of the two source files of the
repository — `justmagic_tools.py` (the `JustMagicTools` class: the remote
task client and the per-tool task builders) and `main.py` (the chat
endpoint: tool execution folding and conversation-history retention) —
and proves the specification claims about them.

Python dictionaries are modelled as association lists (`Dict`) with
first-match lookup; dictionary update appends the overriding entries in
front.  Python values appearing in tool arguments, wire payloads and
results are modelled by the inductive `PyVal`.  Python exceptions are
modelled with `Except PyErr`.  Network responses are inputs (`Net`):
the outcome of the single JSON request and the binary payload of the
CSV download, with the payload decodability under `json` / `gzip+utf8`
/ raw `utf8` recorded as fields (the corresponding Python library calls
are external to the repository).  `str()` encoding of wire values at
the transport boundary is not modelled; requests are inspected at the
field-value level.  csv parsing is modelled for quote-free text, which
is the shape `csv.reader(..., delimiter='\t')` receives here.
-/

/-- A page object (url plus query list); `queries` is optional
for the marker-distribution tool and required by the text analyzer. -/
structure Page where
  url : String
  queries : Option (List String)
deriving DecidableEq

/-- Python values as they occur in tool arguments, wire payloads and results. -/
inductive PyVal where
  | str (s : String)
  | int (n : Int)
  | bool (b : Bool)
  | list (l : List String)
  | pageList (l : List Page)
  | rows (r : List (List String))
deriving DecidableEq

/-- Python exceptions raised by the embedded code. -/
inductive PyErr where
  | keyError (k : String)
  | typeError
  | unicodeDecodeError
deriving DecidableEq

/-- A Python dict: association list, first match wins on lookup. -/
abbrev Dict := List (String × PyVal)

/-- Dictionary lookup `d[k]`, returning `none` when the key is absent. -/
def dictGet? (d : Dict) (k : String) : Option PyVal :=
  (d.find? (fun kv => kv.1 = k)).map (·.2)

/-- Defaulted lookup `d.get(k, dflt)`. -/
def dictGetD (d : Dict) (k : String) (dflt : PyVal) : PyVal :=
  (dictGet? d k).getD dflt

/-- Required lookup `d[k]`, raising `KeyError` when absent. -/
def dictGetReq (d : Dict) (k : String) : Except PyErr PyVal :=
  match dictGet? d k with
  | some v => .ok v
  | none => .error (.keyError k)

/-- Python truthiness of a value. -/
def pyTruthy : PyVal → Bool
  | .str s => s ≠ ""
  | .int n => n ≠ 0
  | .bool b => b
  | .list l => l ≠ []
  | .pageList l => l ≠ []
  | .rows r => r ≠ []

/-- Truthiness of `d.get(k)` (absent key is falsy). -/
def truthyOpt : Option PyVal → Bool
  | some v => pyTruthy v
  | none => false

/-- Coerce to a list of strings (`"\n".join(...)` needs one). -/
def asStrList : PyVal → Except PyErr (List String)
  | .list l => .ok l
  | _ => .error .typeError

/-- Coerce to an int (`min`/`max` arithmetic needs one). -/
def asInt : PyVal → Except PyErr Int
  | .int n => .ok n
  | _ => .error .typeError

/-- Coerce to a list of pages. -/
def asPages : PyVal → Except PyErr (List Page)
  | .pageList l => .ok l
  | _ => .error .typeError

/-- Defaulted lookup of an integer-valued parameter. -/
def getIntD (d : Dict) (k : String) (dflt : Int) : Except PyErr Int :=
  match dictGet? d k with
  | some v => asInt v
  | none => .ok dflt

/-- Required lookup of a list-of-strings parameter. -/
def getReqStrList (d : Dict) (k : String) : Except PyErr (List String) :=
  match dictGetReq d k with
  | .ok v => asStrList v
  | .error e => .error e

/-- Required lookup of a list-of-pages parameter. -/
def getReqPages (d : Dict) (k : String) : Except PyErr (List Page) :=
  match dictGetReq d k with
  | .ok v => asPages v
  | .error e => .error e

/-- Python string join `sep.join(xs)`. -/
def joinStrs (sep : String) : List String → String
  | [] => ""
  | [x] => x
  | x :: xs => x ++ sep ++ joinStrs sep xs

/-! ## Numeric clamping (from the `execute` branches of `justmagic_tools.py`) -/

/-- Clamp `min(max(iterations, 1), 3)` — suggestions-parser iteration count. -/
def clampIterations (x : Int) : Int := min (max x 1) 3

/-- Clamp `min(max(depth, 0), 9)` — semantics-expansion depth. -/
def clampDepth (x : Int) : Int := min (max x 0) 9

/-- Clamp `min(max(min_power, 3), 9)` — minimum-power threshold. -/
def clampMinPower (x : Int) : Int := min (max x 3) 9

/-- Clamp `min(limit, 100)` — list-tasks limit. -/
def clampLimit (x : Int) : Int := min x 100

/-! ## CSV parsing (`csv.reader(io.StringIO(text), delimiter='\t')`) -/

/-- Split a character list at every occurrence of `c`. -/
def splitOnChar (c : Char) : List Char → List (List Char)
  | [] => [[]]
  | x :: xs =>
    let r := splitOnChar c xs
    if x = c then [] :: r
    else
      match r with
      | [] => [[x]]
      | y :: ys => (x :: y) :: ys

/-- The lines `csv.reader` iterates over: pieces between newlines, with the
empty piece after a trailing newline producing no extra line. -/
def splitLines (s : String) : List String :=
  if s = "" then []
  else
    let ps := (splitOnChar '\n' s.data).map String.mk
    if ps.getLast? = some "" then ps.dropLast else ps

/-- One CSV row: a blank line is an empty row, otherwise tab-separated fields. -/
def parseRow (line : String) : List String :=
  if line = "" then [] else (splitOnChar '\t' line.data).map String.mk

/-- Model of `list(csv.reader(io.StringIO(text), delimiter='\t'))` for quote-free text. -/
def csvParse (text : String) : List (List String) :=
  (splitLines text).map parseRow

/-! ## The remote request layer (`_request`, `_request_binary`, `_get_task_csv`) -/

/-- Outcome of the single HTTP POST of `_request`: a parsed JSON dict, an
exception from `client.post`, or an exception from `response.json()`. -/
inductive NetOutcome where
  | ok (v : Dict)
  | postExn (msg : String)
  | jsonExn (msg : String)
deriving DecidableEq

/-- Decodability of the binary payload fetched by `_request_binary`:
whether `json.loads(content)` yields a dict with a truthy `err`, what
`gzip.decompress(content).decode(utf8)` yields (`none` = raises), and
what `content.decode(utf8)` yields (`none` = raises). -/
structure Payload where
  isJsonError : Bool
  gunzipUtf8 : Option String
  rawUtf8 : Option String
deriving DecidableEq

/-- The network, as seen by one `execute` call: the outcome of its JSON
request (if it makes one) and the binary content fetched by
`_request_binary` (`none` models a transport exception there). -/
structure Net where
  outcome : NetOutcome
  binContent : Option Payload
deriving DecidableEq

/-- An HTTP request sent to the task API: the `action` and the full field
dict (`{"action", "apikey"}` updated with the params, params winning). -/
structure Request where
  action : String
  data : Dict
deriving DecidableEq

/-- Build the wire dict of `_request` / `_request_binary`:
`data = {"action": action, "apikey": apikey}; data.update(params)`. -/
def mkRequest (apikey action : String) (params : Dict) : Request :=
  ⟨action, params ++ [("action", .str action), ("apikey", .str apikey)]⟩

/-- The `request_error` result dict built by the `except` clause of `_request`. -/
def requestErrDict (msg : String) : Dict :=
  [("err", .str "request_error"), ("errtxt", .str msg)]

/-- The value returned by `_request`: the parsed JSON on success, a
`request_error` dict when the POST or the JSON decode raises. -/
def jmRequest : NetOutcome → Dict
  | .ok v => v
  | .postExn m => requestErrDict m
  | .jsonExn m => requestErrDict m

/-- Model of `_request(action, params)`: the request sent and the resulting dict. -/
def requestResult (apikey : String) (net : Net) (action : String) (params : Dict) :
    Request × Dict :=
  (mkRequest apikey action params, jmRequest net.outcome)

/-- Model of `_get_task_csv` after its binary request: `[]` on transport failure or a
JSON error payload; otherwise gzip+utf8 decode, falling back to raw utf8
decode; `UnicodeDecodeError` propagates when both decodes fail. -/
def getTaskCsv (net : Net) : Except PyErr (List (List String)) :=
  match net.binContent with
  | none => .ok []
  | some pl =>
    if pl.isJsonError then .ok []
    else
      match pl.gunzipUtf8 with
      | some text => .ok (csvParse text)
      | none =>
        match pl.rawUtf8 with
        | some text => .ok (csvParse text)
        | none => .error .unicodeDecodeError

/-- Python slice `data[:m]` for an integer `m` (negative values count from the end). -/
def pySlice (l : List (List String)) (m : Int) : List (List String) :=
  if 0 ≤ m then l.take m.toNat
  else l.take (l.length - (-m).toNat)

/-- Params of `_put_task`: a copy of the task data, plus `justask = 1` when
`just_ask` is truthy. -/
def putTaskParams (taskData : Dict) (justAsk : Bool) : Dict :=
  if justAsk then taskData ++ [("justask", .int 1)] else taskData

/-! ## Task-data builders (one per task-submitting branch of `execute`) -/

/-- Conditional field copy `if args.get(k): task_data[f] = args[k]`. -/
def addIfTruthy (td : Dict) (args : Dict) (argKey fieldKey : String) : Dict :=
  match dictGet? args argKey with
  | some v => if pyTruthy v then td ++ [(fieldKey, v)] else td
  | none => td

/-- Conditional flag `if args.get(k): task_data[f] = 1`. -/
def addFlagIfTruthy (td : Dict) (args : Dict) (argKey fieldKey : String) : Dict :=
  if truthyOpt (dictGet? args argKey) then td ++ [(fieldKey, .int 1)] else td

/-- Task data of the `justmagic_cluster` branch (`grp_onl`). -/
def clusterTaskData (args : Dict) (queries : List String) : Dict :=
  let td := [("task", PyVal.str "grp_onl"),
             ("data", PyVal.str (joinStrs "\n" queries)),
             ("search_engine", dictGetD args "search_engine" (.str "yandex")),
             ("lang", dictGetD args "lang" (.str "ru"))]
  let td :=
    match dictGet? args "google_lr" with
    | some g =>
      if dictGet? args "search_engine" = some (.str "google") ∧ pyTruthy g = true then
        td ++ [("google_lr", g)]
      else
        td ++ [("ya_lr", dictGetD args "region" (.int 213))]
    | none => td ++ [("ya_lr", dictGetD args "region" (.int 213))]
  let td := addFlagIfTruthy td args "collect_frequency" "s_std"
  let td := addIfTruthy td args "label" "label"
  addIfTruthy td args "domain" "domain"

/-- The tab-delimited lines of the text analyzer: one line per (url, query)
pair; `p["queries"]` raises `KeyError` when absent. -/
def taLines : List Page → Except PyErr (List String)
  | [] => .ok []
  | p :: ps =>
    match p.queries with
    | none => .error (.keyError "queries")
    | some qs =>
      match taLines ps with
      | .ok rest => .ok (qs.map (fun q => p.url ++ "\t" ++ q) ++ rest)
      | .error e => .error e

/-- Task data of the `justmagic_text_analyzer` branch (`txt_anlz`). -/
def textAnalyzerTaskData (args : Dict) (lines : List String) : Dict :=
  [("task", .str "txt_anlz"),
   ("data", .str (joinStrs "\n" lines)),
   ("search_engine", dictGetD args "search_engine" (.str "yandex")),
   ("ya_lr", dictGetD args "region" (.int 213))]

/-- Task data of the `justmagic_aquarelle` branch (`aqua`). -/
def aquarelleTaskData (args : Dict) (keyword text : PyVal) : Dict :=
  [("task", .str "aqua"), ("key", keyword), ("data", text),
   ("search_engine", dictGetD args "search_engine" (.str "yandex")),
   ("lang", dictGetD args "lang" (.str "ru"))]

/-- Task data of the `justmagic_aquarelle_generator` branch (`aqua_gen`). -/
def aquaGenTaskData (args : Dict) (queries : List String) : Dict :=
  [("task", .str "aqua_gen"), ("data", .str (joinStrs "\n" queries)),
   ("search_engine", dictGetD args "search_engine" (.str "yandex")),
   ("lang", dictGetD args "lang" (.str "ru"))]

/-- Task data of the `justmagic_wordstat_frequency` branch (`wsfreq`). -/
def wsfreqTaskData (args : Dict) (queries : List String) : Dict :=
  let td := [("task", PyVal.str "wsfreq"),
             ("data", PyVal.str (joinStrs "\n" queries)),
             ("device", dictGetD args "device" (.str "all"))]
  let td := addIfTruthy td args "region" "ya_lrws"
  let td := addIfTruthy td args "label" "label"
  let td := if pyTruthy (dictGetD args "s_std" (.bool true))
            then td ++ [("s_std", PyVal.int 1)] else td
  addFlagIfTruthy td args "s_q" "s_q"

/-- Task data of the `justmagic_suggestions_parser` branch (`sug_par`). -/
def sugParTaskData (args : Dict) (queries : List String) (iterations : Int) : Dict :=
  let td := [("task", PyVal.str "sug_par"),
             ("data", PyVal.str (joinStrs "\n" queries)),
             ("ya_lr", dictGetD args "region" (.int 213)),
             ("lang", dictGetD args "lang" (.str "ru")),
             ("iter", PyVal.int (clampIterations iterations))]
  addFlagIfTruthy td args "add_russian_letters" "f_rus"

/-- Task data of the `justmagic_thematic_classifier` branch (`temakl`). -/
def temaklTaskData (args : Dict) (queries : List String) : Dict :=
  addFlagIfTruthy
    [("task", PyVal.str "temakl"), ("data", PyVal.str (joinStrs "\n" queries))]
    args "show_all_categories" "f_gall"

/-- One line of the marker-distribution data: the url, then the queries of
the page tab-appended when present and non-empty. -/
def markLine (p : Page) : String :=
  p.url ++ (match p.queries with
            | some qs => if qs ≠ [] then "\t" ++ joinStrs "\t" qs else ""
            | none => "")

/-- The marker-distribution lines: one per page. -/
def markLines (ps : List Page) : List String := ps.map markLine

/-- Task data of the `justmagic_markers_online` branch (`mark_onl`). -/
def markersTaskData (args : Dict) (pages : List Page) (baseQueries : List String)
    (minPower : Int) : Dict :=
  [("task", .str "mark_onl"),
   ("data", .str (joinStrs "\n" (markLines pages))),
   ("data_base", .str (joinStrs "\n" baseQueries)),
   ("ya_lr", dictGetD args "region" (.int 213)),
   ("mode", dictGetD args "mode" (.str "hard")),
   ("min_pwr", .int (clampMinPower minPower))]

/-- Task data of the `justmagic_expand_semantics` branch (`grp_deep`). -/
def grpDeepTaskData (args : Dict) (queries : List String) (depth minPower : Int) : Dict :=
  [("task", .str "grp_deep"), ("data", .str (joinStrs "\n" queries)),
   ("base", dictGetD args "base" (.int 3)),
   ("deep", .int (clampDepth depth)),
   ("min_pwr", .int (clampMinPower minPower))]

/-- Task data of the `justmagic_regex_search` branch (`rexp`). -/
def rexpTaskData (args : Dict) (pat : PyVal) : Dict :=
  addIfTruthy
    [("task", PyVal.str "rexp"), ("base", dictGetD args "base" (.int 3)), ("rexpa", pat)]
    args "exclude_pattern" "rexpd"

/-! ## `execute` -/

/-- Issue one `_request` and return its trace and (always ok) result. -/
def runRequest (apikey : String) (net : Net) (action : String) (params : Dict) :
    List Request × Except PyErr Dict :=
  ([mkRequest apikey action params], .ok (jmRequest net.outcome))

/-- Model of `_put_task(task_data, just_ask)`. -/
def runPutTask (apikey : String) (net : Net) (taskData : Dict) (justAsk : Bool) :
    List Request × Except PyErr Dict :=
  runRequest apikey net "put_task" (putTaskParams taskData justAsk)

/-- Short-circuit an argument-extraction failure: the exception propagates
and no request has been issued. -/
def bindArg (x : Except PyErr α) (k : α → List Request × Except PyErr Dict) :
    List Request × Except PyErr Dict :=
  match x with
  | .ok a => k a
  | .error e => ([], .error e)

/-- The `no_data` result dict of the download branch. -/
def noDataDict : Dict :=
  [("err", .str "no_data"), ("errtxt", .str "Не удалось получить данные")]

/-- Model of `JustMagicTools.execute(name, args)`: dispatch on the tool name,
returning the list of HTTP requests issued and the result dict, or the
Python exception that propagates to the caller. -/
def execute (apikey : String) (net : Net) (name : String) (args : Dict) :
    List Request × Except PyErr Dict :=
  if name = "justmagic_info" then
    runRequest apikey net "info" []
  else if name = "justmagic_list_tasks" then
    bindArg (getIntD args "limit" 10) fun limit =>
      runRequest apikey net "list_tasks"
        [("limit", .int (clampLimit limit)), ("offset", dictGetD args "offset" (.int 0))]
  else if name = "justmagic_get_task" then
    bindArg (dictGetReq args "tid") fun tid =>
      runRequest apikey net "get_task" [("tid", tid), ("mode", dictGetD args "mode" (.str "info"))]
  else if name = "justmagic_download_result" then
    bindArg (dictGetReq args "tid") fun tid =>
      let req := mkRequest apikey "get_task"
        [("tid", tid), ("mode", .str "csv"), ("system", .str "unix")]
      match getTaskCsv net with
      | .error e => ([req], .error e)
      | .ok data =>
        if data = [] then ([req], .ok noDataDict)
        else
          match getIntD args "max_rows" 100 with
          | .error e => ([req], .error e)
          | .ok maxRows =>
            ([req], .ok [("err", .int 0),
                         ("total_rows", .int (data.length : Int)),
                         ("returned_rows", .int (min (data.length : Int) maxRows)),
                         ("data", .rows (pySlice data maxRows))])
  else if name = "justmagic_cluster" then
    bindArg (getReqStrList args "queries") fun queries =>
      runPutTask apikey net (clusterTaskData args queries)
        (truthyOpt (dictGet? args "just_ask"))
  else if name = "justmagic_text_analyzer" then
    bindArg (getReqPages args "pages") fun pages =>
      bindArg (taLines pages) fun lines =>
        runPutTask apikey net (textAnalyzerTaskData args lines)
          (truthyOpt (dictGet? args "just_ask"))
  else if name = "justmagic_aquarelle" then
    bindArg (dictGetReq args "keyword") fun keyword =>
      bindArg (dictGetReq args "text") fun text =>
        runPutTask apikey net (aquarelleTaskData args keyword text) false
  else if name = "justmagic_aquarelle_generator" then
    bindArg (getReqStrList args "queries") fun queries =>
      runPutTask apikey net (aquaGenTaskData args queries)
        (truthyOpt (dictGet? args "just_ask"))
  else if name = "justmagic_wordstat_frequency" then
    bindArg (getReqStrList args "queries") fun queries =>
      runPutTask apikey net (wsfreqTaskData args queries)
        (truthyOpt (dictGet? args "just_ask"))
  else if name = "justmagic_suggestions_parser" then
    bindArg (getReqStrList args "queries") fun queries =>
      bindArg (getIntD args "iterations" 1) fun iterations =>
        runPutTask apikey net (sugParTaskData args queries iterations)
          (truthyOpt (dictGet? args "just_ask"))
  else if name = "justmagic_thematic_classifier" then
    bindArg (getReqStrList args "queries") fun queries =>
      runPutTask apikey net (temaklTaskData args queries)
        (truthyOpt (dictGet? args "just_ask"))
  else if name = "justmagic_markers_online" then
    bindArg (getReqPages args "pages") fun pages =>
      bindArg (getReqStrList args "base_queries") fun baseQueries =>
        bindArg (getIntD args "min_power" 3) fun minPower =>
          runPutTask apikey net (markersTaskData args pages baseQueries minPower)
            (truthyOpt (dictGet? args "just_ask"))
  else if name = "justmagic_expand_semantics" then
    bindArg (getReqStrList args "queries") fun queries =>
      bindArg (getIntD args "depth" 1) fun depth =>
        bindArg (getIntD args "min_power" 3) fun minPower =>
          runPutTask apikey net (grpDeepTaskData args queries depth minPower)
            (truthyOpt (dictGet? args "just_ask"))
  else if name = "justmagic_regex_search" then
    bindArg (dictGetReq args "pattern") fun pat =>
      runPutTask apikey net (rexpTaskData args pat)
        (truthyOpt (dictGet? args "just_ask"))
  else
    ([], .ok [("err", .str "unknown_tool"),
              ("errtxt", .str ("Неизвестный инструмент: " ++ name))])

/-! ## The chat endpoint (`main.py`) -/

/-- History retention (`main.py` lines 241–243): keep the most recent 40
turns once the cap is exceeded. -/
def trimHistory (h : List α) : List α :=
  if h.length > 40 then h.drop (h.length - 40) else h

/-- Appending one turn and enforcing retention. -/
def appendTurn (h : List α) (t : α) : List α := trimHistory (h ++ [t])

/-- Outcome of the tool-execution section of the `chat` handler: either the
tool-result dicts that get folded back into the conversation, or the HTTP
error the generic exception handler converts a Python exception into. -/
inductive ChatOutcome where
  | folded (toolResults : List Dict)
  | httpError (status : Nat)
deriving DecidableEq

/-- Run the requested tool invocations of one model turn in order
(`main.py` lines 193–212): each result dict becomes a tool-result entry,
while an exception escaping `execute` aborts the whole request and is
turned into an HTTP 500 by the `except Exception` handler. -/
def runToolUses (apikey : String) (net : Net) : List (String × Dict) → ChatOutcome
  | [] => .folded []
  | (name, input) :: rest =>
    match (execute apikey net name input).2 with
    | .error _ => .httpError 500
    | .ok res =>
      match runToolUses apikey net rest with
      | .folded rs => .folded (res :: rs)
      | .httpError s => .httpError s

/-! ## Dictionary lemmas -/

theorem dictGet?_nil (k : String) : dictGet? [] k = none := rfl

theorem dictGet?_cons (k' : String) (v : PyVal) (d : Dict) (k : String) :
    dictGet? ((k', v) :: d) k = if k' = k then some v else dictGet? d k := by
  by_cases h : k' = k <;> simp [dictGet?, List.find?_cons, h]

theorem dictGet?_append (d₁ d₂ : Dict) (k : String) :
    dictGet? (d₁ ++ d₂) k = (dictGet? d₁ k).or (dictGet? d₂ k) := by
  cases h : List.find? (fun kv => kv.1 = k) d₁ <;>
    simp [dictGet?, List.find?_append, h]

/-- Lookup in the wire dict of a request: the params win; the base
contributes only `action` and `apikey`. -/
theorem mkRequest_get_ne (apikey action : String) (params : Dict) (k : String)
    (h1 : k ≠ "action") (h2 : k ≠ "apikey") :
    dictGet? (mkRequest apikey action params).data k = dictGet? params k := by
  simp [mkRequest, dictGet?_append, dictGet?_cons, Ne.symm h1, Ne.symm h2, dictGet?_nil]

/-- Lookup of a key other than `justask` passes through the copy made by `_put_task`. -/
theorem putTaskParams_get_ne (td : Dict) (ja : Bool) (k : String) (h : k ≠ "justask") :
    dictGet? (putTaskParams td ja) k = dictGet? td k := by
  unfold putTaskParams
  split
  · simp [dictGet?_append, dictGet?_cons, Ne.symm h, dictGet?_nil]
  · rfl

/-- The `justask` field of the params of `_put_task` is exactly the dry-run flag,
provided the task data itself has no such key. -/
theorem putTaskParams_get_justask (td : Dict) (ja : Bool)
    (h : dictGet? td "justask" = none) :
    dictGet? (putTaskParams td ja) "justask" = if ja then some (.int 1) else none := by
  unfold putTaskParams
  split <;> simp [dictGet?_append, dictGet?_cons, dictGet?_nil, h]

/-- In the wire dict, `action` and `apikey` are present with the values
`_request` sets, provided the params do not override them. -/
theorem mkRequest_get_base (apikey action : String) (params : Dict)
    (h1 : dictGet? params "action" = none) (h2 : dictGet? params "apikey" = none) :
    dictGet? (mkRequest apikey action params).data "action" = some (.str action) ∧
    dictGet? (mkRequest apikey action params).data "apikey" = some (.str apikey) := by
  constructor <;> simp [mkRequest, dictGet?_append, dictGet?_cons, h1, h2, dictGet?_nil]

/-- Lookup of a key other than the copied field passes through `addIfTruthy`. -/
theorem addIfTruthy_get_ne (td args : Dict) (a f k : String) (h : k ≠ f) :
    dictGet? (addIfTruthy td args a f) k = dictGet? td k := by
  unfold addIfTruthy
  split
  · split
    · simp [dictGet?_append, dictGet?_cons, Ne.symm h, dictGet?_nil]
    · rfl
  · rfl

/-- Lookup of a key other than the flag field passes through `addFlagIfTruthy`. -/
theorem addFlagIfTruthy_get_ne (td args : Dict) (a f k : String) (h : k ≠ f) :
    dictGet? (addFlagIfTruthy td args a f) k = dictGet? td k := by
  unfold addFlagIfTruthy
  split
  · simp [dictGet?_append, dictGet?_cons, Ne.symm h, dictGet?_nil]
  · rfl

/-- The copied field of `addIfTruthy` is present iff the argument is truthy. -/
theorem addIfTruthy_get_self (td args : Dict) (a f : String)
    (h : dictGet? td f = none) :
    dictGet? (addIfTruthy td args a f) f =
      match dictGet? args a with
      | some v => if pyTruthy v then some v else none
      | none => none := by
  unfold addIfTruthy
  split
  · split
    · simp_all [dictGet?_append, dictGet?_cons, dictGet?_nil]
    · simp_all
  · simp_all

/-- The flag field of `addFlagIfTruthy` is present iff the argument is truthy. -/
theorem addFlagIfTruthy_get_self (td args : Dict) (a f : String)
    (h : dictGet? td f = none) :
    dictGet? (addFlagIfTruthy td args a f) f =
      if truthyOpt (dictGet? args a) then some (.int 1) else none := by
  unfold addFlagIfTruthy
  split <;> simp_all [dictGet?_append, dictGet?_cons, dictGet?_nil]

/-! ## Key inventories of the task-data builders -/

theorem clusterTaskData_get_none (args : Dict) (queries : List String) (k : String)
    (h : k ∉ (["task", "data", "search_engine", "lang", "google_lr", "ya_lr",
               "s_std", "label", "domain"] : List String)) :
    dictGet? (clusterTaskData args queries) k = none := by
  simp only [List.mem_cons, List.not_mem_nil, or_false, not_or] at h
  obtain ⟨h1, h2, h3, h4, h5, h6, h7, h8, h9⟩ := h
  unfold clusterTaskData
  rw [addIfTruthy_get_ne _ _ _ _ _ h9, addIfTruthy_get_ne _ _ _ _ _ h8,
      addFlagIfTruthy_get_ne _ _ _ _ _ h7]
  split <;> [skip; simp [dictGet?_append, dictGet?_cons, dictGet?_nil,
    Ne.symm h1, Ne.symm h2, Ne.symm h3, Ne.symm h4, Ne.symm h6]]
  split <;> simp [dictGet?_append, dictGet?_cons, dictGet?_nil,
    Ne.symm h1, Ne.symm h2, Ne.symm h3, Ne.symm h4, Ne.symm h5, Ne.symm h6]

theorem textAnalyzerTaskData_get_none (args : Dict) (lines : List String) (k : String)
    (h : k ∉ (["task", "data", "search_engine", "ya_lr"] : List String)) :
    dictGet? (textAnalyzerTaskData args lines) k = none := by
  simp only [List.mem_cons, List.not_mem_nil, or_false, not_or] at h
  obtain ⟨h1, h2, h3, h4⟩ := h
  simp [textAnalyzerTaskData, dictGet?_cons, dictGet?_nil,
    Ne.symm h1, Ne.symm h2, Ne.symm h3, Ne.symm h4]

theorem aquarelleTaskData_get_none (args : Dict) (keyword text : PyVal) (k : String)
    (h : k ∉ (["task", "key", "data", "search_engine", "lang"] : List String)) :
    dictGet? (aquarelleTaskData args keyword text) k = none := by
  simp only [List.mem_cons, List.not_mem_nil, or_false, not_or] at h
  obtain ⟨h1, h2, h3, h4, h5⟩ := h
  simp [aquarelleTaskData, dictGet?_cons, dictGet?_nil,
    Ne.symm h1, Ne.symm h2, Ne.symm h3, Ne.symm h4, Ne.symm h5]

theorem aquaGenTaskData_get_none (args : Dict) (queries : List String) (k : String)
    (h : k ∉ (["task", "data", "search_engine", "lang"] : List String)) :
    dictGet? (aquaGenTaskData args queries) k = none := by
  simp only [List.mem_cons, List.not_mem_nil, or_false, not_or] at h
  obtain ⟨h1, h2, h3, h4⟩ := h
  simp [aquaGenTaskData, dictGet?_cons, dictGet?_nil,
    Ne.symm h1, Ne.symm h2, Ne.symm h3, Ne.symm h4]

theorem wsfreqTaskData_get_none (args : Dict) (queries : List String) (k : String)
    (h : k ∉ (["task", "data", "device", "ya_lrws", "label", "s_std", "s_q"] : List String)) :
    dictGet? (wsfreqTaskData args queries) k = none := by
  simp only [List.mem_cons, List.not_mem_nil, or_false, not_or] at h
  obtain ⟨h1, h2, h3, h4, h5, h6, h7⟩ := h
  unfold wsfreqTaskData
  rw [addFlagIfTruthy_get_ne _ _ _ _ _ h7]
  split
  · rw [dictGet?_append, addIfTruthy_get_ne _ _ _ _ _ h5, addIfTruthy_get_ne _ _ _ _ _ h4]
    simp [dictGet?_cons, dictGet?_nil, Ne.symm h1, Ne.symm h2, Ne.symm h3, Ne.symm h6]
  · rw [addIfTruthy_get_ne _ _ _ _ _ h5, addIfTruthy_get_ne _ _ _ _ _ h4]
    simp [dictGet?_cons, dictGet?_nil, Ne.symm h1, Ne.symm h2, Ne.symm h3]

theorem sugParTaskData_get_none (args : Dict) (queries : List String) (iterations : Int)
    (k : String)
    (h : k ∉ (["task", "data", "ya_lr", "lang", "iter", "f_rus"] : List String)) :
    dictGet? (sugParTaskData args queries iterations) k = none := by
  simp only [List.mem_cons, List.not_mem_nil, or_false, not_or] at h
  obtain ⟨h1, h2, h3, h4, h5, h6⟩ := h
  unfold sugParTaskData
  rw [addFlagIfTruthy_get_ne _ _ _ _ _ h6]
  simp [dictGet?_cons, dictGet?_nil,
    Ne.symm h1, Ne.symm h2, Ne.symm h3, Ne.symm h4, Ne.symm h5]

theorem temaklTaskData_get_none (args : Dict) (queries : List String) (k : String)
    (h : k ∉ (["task", "data", "f_gall"] : List String)) :
    dictGet? (temaklTaskData args queries) k = none := by
  simp only [List.mem_cons, List.not_mem_nil, or_false, not_or] at h
  obtain ⟨h1, h2, h3⟩ := h
  unfold temaklTaskData
  rw [addFlagIfTruthy_get_ne _ _ _ _ _ h3]
  simp [dictGet?_cons, dictGet?_nil, Ne.symm h1, Ne.symm h2]

theorem markersTaskData_get_none (args : Dict) (pages : List Page)
    (baseQueries : List String) (minPower : Int) (k : String)
    (h : k ∉ (["task", "data", "data_base", "ya_lr", "mode", "min_pwr"] : List String)) :
    dictGet? (markersTaskData args pages baseQueries minPower) k = none := by
  simp only [List.mem_cons, List.not_mem_nil, or_false, not_or] at h
  obtain ⟨h1, h2, h3, h4, h5, h6⟩ := h
  simp [markersTaskData, dictGet?_cons, dictGet?_nil,
    Ne.symm h1, Ne.symm h2, Ne.symm h3, Ne.symm h4, Ne.symm h5, Ne.symm h6]

theorem grpDeepTaskData_get_none (args : Dict) (queries : List String)
    (depth minPower : Int) (k : String)
    (h : k ∉ (["task", "data", "base", "deep", "min_pwr"] : List String)) :
    dictGet? (grpDeepTaskData args queries depth minPower) k = none := by
  simp only [List.mem_cons, List.not_mem_nil, or_false, not_or] at h
  obtain ⟨h1, h2, h3, h4, h5⟩ := h
  simp [grpDeepTaskData, dictGet?_cons, dictGet?_nil,
    Ne.symm h1, Ne.symm h2, Ne.symm h3, Ne.symm h4, Ne.symm h5]

theorem rexpTaskData_get_none (args : Dict) (pat : PyVal) (k : String)
    (h : k ∉ (["task", "base", "rexpa", "rexpd"] : List String)) :
    dictGet? (rexpTaskData args pat) k = none := by
  simp only [List.mem_cons, List.not_mem_nil, or_false, not_or] at h
  obtain ⟨h1, h2, h3, h4⟩ := h
  unfold rexpTaskData
  rw [addIfTruthy_get_ne _ _ _ _ _ h4]
  simp [dictGet?_cons, dictGet?_nil, Ne.symm h1, Ne.symm h2, Ne.symm h3]

/-! ## Branch unfoldings of `execute` -/

theorem execute_info_eq (apikey : String) (net : Net) (args : Dict) :
    execute apikey net "justmagic_info" args = runRequest apikey net "info" [] := rfl

theorem execute_list_tasks_eq (apikey : String) (net : Net) (args : Dict) :
    execute apikey net "justmagic_list_tasks" args =
      bindArg (getIntD args "limit" 10) fun limit =>
        runRequest apikey net "list_tasks"
          [("limit", .int (clampLimit limit)),
           ("offset", dictGetD args "offset" (.int 0))] := rfl

theorem execute_get_task_eq (apikey : String) (net : Net) (args : Dict) :
    execute apikey net "justmagic_get_task" args =
      bindArg (dictGetReq args "tid") fun tid =>
        runRequest apikey net "get_task"
          [("tid", tid), ("mode", dictGetD args "mode" (.str "info"))] := rfl

theorem execute_download_eq (apikey : String) (net : Net) (args : Dict) :
    execute apikey net "justmagic_download_result" args =
      (bindArg (dictGetReq args "tid") fun tid =>
        let req := mkRequest apikey "get_task"
          [("tid", tid), ("mode", .str "csv"), ("system", .str "unix")]
        match getTaskCsv net with
        | .error e => ([req], .error e)
        | .ok data =>
          if data = [] then ([req], .ok noDataDict)
          else
            match getIntD args "max_rows" 100 with
            | .error e => ([req], .error e)
            | .ok maxRows =>
              ([req], .ok [("err", .int 0),
                           ("total_rows", .int (data.length : Int)),
                           ("returned_rows", .int (min (data.length : Int) maxRows)),
                           ("data", .rows (pySlice data maxRows))])) := rfl

theorem execute_cluster_eq (apikey : String) (net : Net) (args : Dict) :
    execute apikey net "justmagic_cluster" args =
      (bindArg (getReqStrList args "queries") fun queries =>
        runPutTask apikey net (clusterTaskData args queries)
          (truthyOpt (dictGet? args "just_ask"))) := rfl

theorem execute_text_analyzer_eq (apikey : String) (net : Net) (args : Dict) :
    execute apikey net "justmagic_text_analyzer" args =
      (bindArg (getReqPages args "pages") fun pages =>
        bindArg (taLines pages) fun lines =>
          runPutTask apikey net (textAnalyzerTaskData args lines)
            (truthyOpt (dictGet? args "just_ask"))) := rfl

theorem execute_aquarelle_eq (apikey : String) (net : Net) (args : Dict) :
    execute apikey net "justmagic_aquarelle" args =
      (bindArg (dictGetReq args "keyword") fun keyword =>
        bindArg (dictGetReq args "text") fun text =>
          runPutTask apikey net (aquarelleTaskData args keyword text) false) := rfl

theorem execute_aqua_gen_eq (apikey : String) (net : Net) (args : Dict) :
    execute apikey net "justmagic_aquarelle_generator" args =
      (bindArg (getReqStrList args "queries") fun queries =>
        runPutTask apikey net (aquaGenTaskData args queries)
          (truthyOpt (dictGet? args "just_ask"))) := rfl

theorem execute_wsfreq_eq (apikey : String) (net : Net) (args : Dict) :
    execute apikey net "justmagic_wordstat_frequency" args =
      (bindArg (getReqStrList args "queries") fun queries =>
        runPutTask apikey net (wsfreqTaskData args queries)
          (truthyOpt (dictGet? args "just_ask"))) := rfl

theorem execute_sug_par_eq (apikey : String) (net : Net) (args : Dict) :
    execute apikey net "justmagic_suggestions_parser" args =
      (bindArg (getReqStrList args "queries") fun queries =>
        bindArg (getIntD args "iterations" 1) fun iterations =>
          runPutTask apikey net (sugParTaskData args queries iterations)
            (truthyOpt (dictGet? args "just_ask"))) := rfl

theorem execute_temakl_eq (apikey : String) (net : Net) (args : Dict) :
    execute apikey net "justmagic_thematic_classifier" args =
      (bindArg (getReqStrList args "queries") fun queries =>
        runPutTask apikey net (temaklTaskData args queries)
          (truthyOpt (dictGet? args "just_ask"))) := rfl

theorem execute_markers_eq (apikey : String) (net : Net) (args : Dict) :
    execute apikey net "justmagic_markers_online" args =
      (bindArg (getReqPages args "pages") fun pages =>
        bindArg (getReqStrList args "base_queries") fun baseQueries =>
          bindArg (getIntD args "min_power" 3) fun minPower =>
            runPutTask apikey net (markersTaskData args pages baseQueries minPower)
              (truthyOpt (dictGet? args "just_ask"))) := rfl

theorem execute_grp_deep_eq (apikey : String) (net : Net) (args : Dict) :
    execute apikey net "justmagic_expand_semantics" args =
      (bindArg (getReqStrList args "queries") fun queries =>
        bindArg (getIntD args "depth" 1) fun depth =>
          bindArg (getIntD args "min_power" 3) fun minPower =>
            runPutTask apikey net (grpDeepTaskData args queries depth minPower)
              (truthyOpt (dictGet? args "just_ask"))) := rfl

theorem execute_rexp_eq (apikey : String) (net : Net) (args : Dict) :
    execute apikey net "justmagic_regex_search" args =
      (bindArg (dictGetReq args "pattern") fun pat =>
        runPutTask apikey net (rexpTaskData args pat)
          (truthyOpt (dictGet? args "just_ask"))) := rfl

/-! ## Shared concrete instances -/

/-- A network that answers the JSON request with a normal task response. -/
def netOk : Net := ⟨.ok [("tid", .int 12345)], none⟩

/-- C8: for every action and parameter mapping, `_request` never raises on
transport or response-parsing failure: any exception from the HTTP call or
the JSON decode is converted into the result value
`{err: "request_error", errtxt: message}`.  (In the embedding `_request`
is a total function into result dicts; both failure outcomes map to the
`request_error` dict.) -/
theorem C8_request_never_raises :
    ∀ (apikey : String) (bc : Option Payload) (action : String) (params : Dict)
      (m : String),
      (requestResult apikey ⟨.postExn m, bc⟩ action params).2 = requestErrDict m ∧
      (requestResult apikey ⟨.jsonExn m, bc⟩ action params).2 = requestErrDict m := by
  intro apikey bc action params m
  exact ⟨rfl, rfl⟩

/-! ## History retention (C4) -/

theorem trimHistory_eq_drop (h : List α) :
    trimHistory h = h.drop (h.length - 40) := by
  unfold trimHistory
  split
  · rfl
  · have : h.length - 40 = 0 := by omega
    simp [this]

theorem trim_append_trim (l m : List α) :
    trimHistory (trimHistory l ++ m) = trimHistory (l ++ m) := by
  rw [trimHistory_eq_drop, trimHistory_eq_drop, trimHistory_eq_drop,
      List.drop_append_eq_append_drop, List.drop_append_eq_append_drop,
      List.drop_drop]
  have e1 : l.length - 40 + ((l.drop (l.length - 40) ++ m).length - 40) =
      (l ++ m).length - 40 := by
    simp only [List.length_append, List.length_drop]
    omega
  have e2 : (l.drop (l.length - 40) ++ m).length - 40 - (l.drop (l.length - 40)).length =
      (l ++ m).length - 40 - l.length := by
    simp only [List.length_append, List.length_drop]
    omega
  rw [e1, e2]

theorem foldl_appendTurn (ts : List α) :
    ∀ l, List.foldl appendTurn (trimHistory l) ts = trimHistory (l ++ ts) := by
  induction ts with
  | nil => intro l; simp
  | cons t ts ih =>
    intro l
    have h1 : appendTurn (trimHistory l) t = trimHistory (l ++ [t]) := by
      rw [appendTurn, trim_append_trim]
    rw [List.foldl_cons, h1, ih (l ++ [t])]
    simp

set_option maxRecDepth 4000 in
/-- C4: for every conversation and every sequence of appended turns, the
stored history after enforcing retention on each append is exactly the
most recent 40 turns in original order (`drop (length - 40)`); in
particular after a 46th append the history is turns 7 through 46. -/
theorem C4_retention_cap :
    (∀ (α : Type) (ts : List α),
      List.foldl appendTurn [] ts = ts.drop (ts.length - 40)) ∧
    List.foldl appendTurn [] ((List.range 46).map (· + 1)) = List.range' 7 40 := by
  have main : ∀ (α : Type) (ts : List α),
      List.foldl appendTurn [] ts = ts.drop (ts.length - 40) := by
    intro α ts
    have h0 : (trimHistory ([] : List α)) = [] := rfl
    have := foldl_appendTurn ts ([] : List α)
    rw [h0, List.nil_append] at this
    rw [this, trimHistory_eq_drop]
  refine ⟨main, ?_⟩
  rw [main]
  decide

/-! ## Clamping (C5) -/

/-- C5: each bound-constrained parameter clamp is total and monotonic, maps
out-of-range values to the nearest bound, passes in-range values through
unchanged (iterations to `[1,3]`, depth to `[0,9]`, min-power to `[3,9]`,
list-tasks limit to at most 100), and `limit=500` goes out on the wire
as `limit=100`. -/
theorem C5_clamping :
    (∀ x y : Int, x ≤ y →
      clampIterations x ≤ clampIterations y ∧ clampDepth x ≤ clampDepth y ∧
      clampMinPower x ≤ clampMinPower y ∧ clampLimit x ≤ clampLimit y) ∧
    (∀ x : Int, (1 ≤ x ∧ x ≤ 3 → clampIterations x = x) ∧
      (x < 1 → clampIterations x = 1) ∧ (3 < x → clampIterations x = 3)) ∧
    (∀ x : Int, (0 ≤ x ∧ x ≤ 9 → clampDepth x = x) ∧
      (x < 0 → clampDepth x = 0) ∧ (9 < x → clampDepth x = 9)) ∧
    (∀ x : Int, (3 ≤ x ∧ x ≤ 9 → clampMinPower x = x) ∧
      (x < 3 → clampMinPower x = 3) ∧ (9 < x → clampMinPower x = 9)) ∧
    (∀ x : Int, (x ≤ 100 → clampLimit x = x) ∧ (100 < x → clampLimit x = 100)) ∧
    (∀ (apikey : String) (net : Net),
      ∀ req ∈ (execute apikey net "justmagic_list_tasks" [("limit", .int 500)]).1,
        dictGet? req.data "limit" = some (.int 100)) := by
  refine ⟨?_, ?_, ?_, ?_, ?_, ?_⟩
  · intro x y h
    refine ⟨?_, ?_, ?_, ?_⟩ <;>
      simp only [clampIterations, clampDepth, clampMinPower, clampLimit] <;> omega
  · intro x
    refine ⟨fun h => ?_, fun h => ?_, fun h => ?_⟩ <;>
      simp only [clampIterations] <;> omega
  · intro x
    refine ⟨fun h => ?_, fun h => ?_, fun h => ?_⟩ <;>
      simp only [clampDepth] <;> omega
  · intro x
    refine ⟨fun h => ?_, fun h => ?_, fun h => ?_⟩ <;>
      simp only [clampMinPower] <;> omega
  · intro x
    refine ⟨fun h => ?_, fun h => ?_⟩ <;> simp only [clampLimit] <;> omega
  · intro apikey net req hreq
    have htr : (execute apikey net "justmagic_list_tasks" [("limit", PyVal.int 500)]).1 =
        [mkRequest apikey "list_tasks" [("limit", .int 100), ("offset", .int 0)]] := rfl
    rw [htr] at hreq
    simp only [List.mem_singleton] at hreq
    subst hreq
    rfl

/-- Concrete instance of the clamping theorem. -/
theorem C5_clamping_witness :
    clampIterations 2 = 2 ∧ clampIterations 10 = 3 ∧ clampLimit 500 = 100 :=
  ⟨(C5_clamping.2.1 2).1 ⟨by decide, by decide⟩,
   (C5_clamping.2.1 10).2.2 (by decide),
   (C5_clamping.2.2.2.2.1 500).2 (by decide)⟩

/-! ## Download-result rows (C10) -/

/-- C10: for a download-result call with a non-empty parsed table, the
success result has `returned_rows = min(total_rows, max_rows)`; when
`max_rows` is non-negative this equals the length of the returned data,
which is a prefix of the full table; when `max_rows` is negative the
equality fails: `returned_rows` is the negative value itself while the
data is the table with its last `|max_rows|` rows removed. -/
theorem C10_download_result_rows :
    ∀ (apikey : String) (net : Net) (args : Dict) (tid : PyVal)
      (data : List (List String)) (m : Int),
      dictGet? args "tid" = some tid →
      getTaskCsv net = .ok data →
      data ≠ [] →
      dictGet? args "max_rows" = some (.int m) →
      ((execute apikey net "justmagic_download_result" args).2 =
        .ok [("err", .int 0), ("total_rows", .int (data.length : Int)),
             ("returned_rows", .int (min (data.length : Int) m)),
             ("data", .rows (pySlice data m))] ∧
       (0 ≤ m → (((pySlice data m).length : Int) = min (data.length : Int) m ∧
         ∃ rest, pySlice data m ++ rest = data)) ∧
       (m < 0 → (min (data.length : Int) m = m ∧
         pySlice data m = data.take (data.length - m.natAbs) ∧
         ((pySlice data m).length : Int) ≠ min (data.length : Int) m))) := by
  intro apikey net args tid data m h1 h2 h3 h4
  refine ⟨?_, ?_, ?_⟩
  · rw [execute_download_eq]
    simp only [dictGetReq, h1, bindArg, h2, h3, if_false, getIntD, h4, asInt]
  · intro hm
    constructor
    · simp only [pySlice, if_pos hm, List.length_take]
      omega
    · refine ⟨data.drop m.toNat, ?_⟩
      simp only [pySlice, if_pos hm]
      exact List.take_append_drop _ _
  · intro hm
    have hmn : ¬ (0 ≤ m) := by omega
    refine ⟨by omega, ?_, ?_⟩
    · simp only [pySlice, if_neg hmn]
      congr 1
      omega
    · simp only [pySlice, if_neg hmn, List.length_take]
      have hlen : data.length ≠ 0 := by
        intro h0
        exact h3 (List.length_eq_zero.mp h0)
      omega

/-- The concrete network instance used by the download-result witnesses:
the binary payload is raw tab-separated text of three rows. -/
def csvNet : Net := ⟨.ok [], some ⟨false, none, some "a\tb\nc\nd"⟩⟩

/-- Concrete instance of the download-result theorem. -/
theorem C10_download_result_rows_witness :
    (execute "key" csvNet "justmagic_download_result"
      [("tid", .int 7), ("max_rows", .int 2)]).2 =
      .ok [("err", .int 0), ("total_rows", .int 3), ("returned_rows", .int 2),
           ("data", .rows [["a", "b"], ["c"]])] := by
  have h := (C10_download_result_rows "key" csvNet
    [("tid", PyVal.int 7), ("max_rows", PyVal.int 2)] (.int 7)
    [["a", "b"], ["c"], ["d"]] 2 rfl rfl (by decide) rfl).1
  exact h

/-! ## Download-result decode failure (C1) -/

/-- A network whose binary payload is neither a JSON error object, nor
gzip-decompressible, nor valid UTF-8 (for example the single byte 0xFF). -/
def undecodableNet : Net := ⟨.ok [], some ⟨false, none, none⟩⟩

/-- C1 counterexample: on a payload that fails both gzip decompression and
raw UTF-8 decoding, the download-result operation does not return a
`no_data` result — the `UnicodeDecodeError` raised by the raw-decode
fallback escapes to the caller (the bare `except` in `_get_task_csv`
guards only the gzip path, not the fallback). -/
theorem C1_counterexample :
    (execute "key" undecodableNet "justmagic_download_result"
      [("tid", .int 1)]).2 = .error .unicodeDecodeError := rfl

/-- C1 amended: a payload failing both decodes makes the download-result
operation raise `UnicodeDecodeError` to its caller; the `no_data` error
result is produced exactly when the fetched table is empty (transport
failure, a JSON error object, or no decoded rows). -/
theorem C1_decode_failure_raises :
    (∀ (apikey : String) (net : Net) (args : Dict) (tid : PyVal) (pl : Payload),
      dictGet? args "tid" = some tid →
      net.binContent = some pl →
      pl.isJsonError = false →
      pl.gunzipUtf8 = none →
      pl.rawUtf8 = none →
      (execute apikey net "justmagic_download_result" args).2 =
        .error .unicodeDecodeError) ∧
    (∀ (apikey : String) (net : Net) (args : Dict) (tid : PyVal),
      dictGet? args "tid" = some tid →
      getTaskCsv net = .ok [] →
      (execute apikey net "justmagic_download_result" args).2 = .ok noDataDict) := by
  constructor
  · intro apikey net args tid pl h1 h2 h3 h4 h5
    rw [execute_download_eq]
    have hcsv : getTaskCsv net = .error .unicodeDecodeError := by
      unfold getTaskCsv
      rw [h2]
      simp [h3, h4, h5]
    simp only [dictGetReq, h1, bindArg, hcsv]
  · intro apikey net args tid h1 h2
    rw [execute_download_eq]
    simp only [dictGetReq, h1, bindArg, h2, if_true, eq_self_iff_true]

/-- Concrete instance of the amended download-result decode theorem. -/
theorem C1_decode_failure_raises_witness :
    (execute "key" ⟨.ok [], none⟩ "justmagic_download_result"
      [("tid", .int 5)]).2 = .ok noDataDict :=
  C1_decode_failure_raises.2 "key" ⟨.ok [], none⟩ [("tid", .int 5)] (.int 5) rfl rfl

/-! ## Missing required arguments (C2) -/

/-- C2 counterexample: invoking the cluster tool without a `queries` list
does not produce a `schema_error` result — there is no argument
validation in the code: the subscript `args["queries"]` raises `KeyError`
(before any request is sent), and the generic chat-handler
`except Exception` turns it into an HTTP 500 that aborts the request
instead of folding an error into the conversation. -/
theorem C2_counterexample :
    execute "key" netOk "justmagic_cluster" [] = ([], .error (.keyError "queries")) ∧
    runToolUses "key" netOk [("justmagic_cluster", [])] = .httpError 500 := ⟨rfl, rfl⟩

/-- C2 amended: a tool invocation whose arguments are missing the required
`queries` field raises `KeyError` before any request is sent to the
remote task API (empty request trace), and the chat endpoint aborts the
whole request with HTTP 500; only errors that `execute` encodes as
result dicts are folded into the conversation as tool results. -/
theorem C2_missing_field_aborts :
    ∀ (apikey : String) (net : Net) (args : Dict),
      dictGet? args "queries" = none →
      (execute apikey net "justmagic_cluster" args = ([], .error (.keyError "queries")) ∧
       runToolUses apikey net [("justmagic_cluster", args)] = .httpError 500 ∧
       ∀ (name : String) (args2 : Dict) (d : Dict),
         (execute apikey net name args2).2 = .ok d →
         runToolUses apikey net [(name, args2)] = .folded [d]) := by
  intro apikey net args h
  have hex : execute apikey net "justmagic_cluster" args =
      ([], .error (.keyError "queries")) := by
    rw [execute_cluster_eq]
    simp only [getReqStrList, dictGetReq, h, bindArg]
  refine ⟨hex, ?_, ?_⟩
  · unfold runToolUses
    rw [hex]
  · intro name args2 d hd
    unfold runToolUses
    rw [hd]
    rfl

/-- Concrete instance of the amended missing-field theorem. -/
theorem C2_missing_field_aborts_witness :
    execute "key" netOk "justmagic_cluster" [("lang", .str "ru")] =
      ([], .error (.keyError "queries")) :=
  (C2_missing_field_aborts "key" netOk [("lang", .str "ru")] rfl).1

/-! ## Dry-run flag (C3) -/

theorem bindArg_ok {α : Type} (x : Except PyErr α)
    (k : α → List Request × Except PyErr Dict) (tr : List Request) (res : Dict)
    (h : bindArg x k = (tr, .ok res)) : ∃ a, x = .ok a ∧ k a = (tr, .ok res) := by
  cases x with
  | ok a => exact ⟨a, rfl, h⟩
  | error e =>
    exfalso
    have h2 := congrArg Prod.snd h
    simp [bindArg] at h2

theorem justask_of_runPutTask (apikey : String) (net : Net) (td : Dict) (ja : Bool)
    (tr : List Request) (res : Dict)
    (h : runPutTask apikey net td ja = (tr, .ok res))
    (hnone : dictGet? td "justask" = none) :
    ∀ req ∈ tr, dictGet? req.data "justask" =
      if ja then some (.int 1) else none := by
  intro req hreq
  have htr : tr = [mkRequest apikey "put_task" (putTaskParams td ja)] :=
    (congrArg Prod.fst h).symm
  rw [htr] at hreq
  simp only [List.mem_singleton] at hreq
  subst hreq
  rw [mkRequest_get_ne _ _ _ _ (by decide) (by decide)]
  exact putTaskParams_get_justask td ja hnone

/-- C3 counterexample: the LSI analyzer (`justmagic_aquarelle`) called with
the dry-run argument set to true issues exactly one request, and its wire
payload carries no `justask` field — the branch hard-codes
`self._put_task(task_data, False)`. -/
theorem C3_counterexample :
    (execute "key" netOk "justmagic_aquarelle"
      [("keyword", .str "phone"), ("text", .str "some text"),
       ("just_ask", .bool true)]).1.map (fun r => dictGet? r.data "justask") =
      [none] := rfl

/-- C3 amended: for the nine task-submitting tools other than the LSI
analyzer (cluster, text analyzer, LSI generator, frequency collector,
suggestion parser, thematic classifier, marker distributor, semantics
expander, regex search), a truthy dry-run argument puts `justask = 1`
into the wire payload and a falsy or absent one omits the field; the LSI
analyzer ignores the flag and never sends `justask`. -/
theorem C3_dry_run_flag :
    (∀ name ∈ (["justmagic_cluster", "justmagic_text_analyzer",
                "justmagic_aquarelle_generator", "justmagic_wordstat_frequency",
                "justmagic_suggestions_parser", "justmagic_thematic_classifier",
                "justmagic_markers_online", "justmagic_expand_semantics",
                "justmagic_regex_search"] : List String),
      ∀ (apikey : String) (net : Net) (args : Dict) (tr : List Request) (res : Dict),
        execute apikey net name args = (tr, .ok res) →
        ∀ req ∈ tr, dictGet? req.data "justask" =
          if truthyOpt (dictGet? args "just_ask") then some (.int 1) else none) ∧
    (∀ (apikey : String) (net : Net) (args : Dict) (tr : List Request) (res : Dict),
      execute apikey net "justmagic_aquarelle" args = (tr, .ok res) →
      ∀ req ∈ tr, dictGet? req.data "justask" = none) := by
  constructor
  · intro name hname apikey net args tr res hexec
    simp only [List.mem_cons, List.not_mem_nil, or_false] at hname
    rcases hname with rfl | rfl | rfl | rfl | rfl | rfl | rfl | rfl | rfl
    · rw [execute_cluster_eq] at hexec
      obtain ⟨queries, _, hexec⟩ := bindArg_ok _ _ _ _ hexec
      exact justask_of_runPutTask _ _ _ _ _ _ hexec
        (clusterTaskData_get_none args queries _ (by decide))
    · rw [execute_text_analyzer_eq] at hexec
      obtain ⟨pages, _, hexec⟩ := bindArg_ok _ _ _ _ hexec
      obtain ⟨lines, _, hexec⟩ := bindArg_ok _ _ _ _ hexec
      exact justask_of_runPutTask _ _ _ _ _ _ hexec
        (textAnalyzerTaskData_get_none args lines _ (by decide))
    · rw [execute_aqua_gen_eq] at hexec
      obtain ⟨queries, _, hexec⟩ := bindArg_ok _ _ _ _ hexec
      exact justask_of_runPutTask _ _ _ _ _ _ hexec
        (aquaGenTaskData_get_none args queries _ (by decide))
    · rw [execute_wsfreq_eq] at hexec
      obtain ⟨queries, _, hexec⟩ := bindArg_ok _ _ _ _ hexec
      exact justask_of_runPutTask _ _ _ _ _ _ hexec
        (wsfreqTaskData_get_none args queries _ (by decide))
    · rw [execute_sug_par_eq] at hexec
      obtain ⟨queries, _, hexec⟩ := bindArg_ok _ _ _ _ hexec
      obtain ⟨iterations, _, hexec⟩ := bindArg_ok _ _ _ _ hexec
      exact justask_of_runPutTask _ _ _ _ _ _ hexec
        (sugParTaskData_get_none args queries iterations _ (by decide))
    · rw [execute_temakl_eq] at hexec
      obtain ⟨queries, _, hexec⟩ := bindArg_ok _ _ _ _ hexec
      exact justask_of_runPutTask _ _ _ _ _ _ hexec
        (temaklTaskData_get_none args queries _ (by decide))
    · rw [execute_markers_eq] at hexec
      obtain ⟨pages, _, hexec⟩ := bindArg_ok _ _ _ _ hexec
      obtain ⟨baseQueries, _, hexec⟩ := bindArg_ok _ _ _ _ hexec
      obtain ⟨minPower, _, hexec⟩ := bindArg_ok _ _ _ _ hexec
      exact justask_of_runPutTask _ _ _ _ _ _ hexec
        (markersTaskData_get_none args pages baseQueries minPower _ (by decide))
    · rw [execute_grp_deep_eq] at hexec
      obtain ⟨queries, _, hexec⟩ := bindArg_ok _ _ _ _ hexec
      obtain ⟨depth, _, hexec⟩ := bindArg_ok _ _ _ _ hexec
      obtain ⟨minPower, _, hexec⟩ := bindArg_ok _ _ _ _ hexec
      exact justask_of_runPutTask _ _ _ _ _ _ hexec
        (grpDeepTaskData_get_none args queries depth minPower _ (by decide))
    · rw [execute_rexp_eq] at hexec
      obtain ⟨pat, _, hexec⟩ := bindArg_ok _ _ _ _ hexec
      exact justask_of_runPutTask _ _ _ _ _ _ hexec
        (rexpTaskData_get_none args pat _ (by decide))
  · intro apikey net args tr res hexec
    rw [execute_aquarelle_eq] at hexec
    obtain ⟨keyword, _, hexec⟩ := bindArg_ok _ _ _ _ hexec
    obtain ⟨text, _, hexec⟩ := bindArg_ok _ _ _ _ hexec
    intro req hreq
    have h := justask_of_runPutTask _ _ _ _ _ _ hexec
      (aquarelleTaskData_get_none args keyword text _ (by decide)) req hreq
    simpa using h

/-- The concrete cluster call used by the dry-run witness. -/
def dryRunArgs : Dict := [("queries", PyVal.list ["a"]), ("just_ask", PyVal.bool true)]

/-- The request that call issues. -/
def dryRunReq : Request :=
  mkRequest "key" "put_task" (putTaskParams (clusterTaskData dryRunArgs ["a"]) true)

/-- Concrete instance of the dry-run flag theorem. -/
theorem C3_dry_run_flag_witness :
    dictGet? dryRunReq.data "justask" = some (.int 1) := by
  have h := C3_dry_run_flag.1 "justmagic_cluster" (by decide) "key" netOk dryRunArgs
    [dryRunReq] [("tid", PyVal.int 12345)] rfl dryRunReq (by decide)
  simpa using h

/-! ## Request well-formedness (C9) -/

theorem mem_bindArg {α : Type} (x : Except PyErr α)
    (k : α → List Request × Except PyErr Dict) (req : Request)
    (h : req ∈ (bindArg x k).1) : ∃ a, x = .ok a ∧ req ∈ (k a).1 := by
  cases x with
  | ok a => exact ⟨a, rfl, h⟩
  | error e => simp [bindArg] at h

/-- The well-formedness property of C9, as a predicate on one request. -/
def WfRequest (apikey : String) (req : Request) : Prop :=
  req.action ∈ (["info", "list_tasks", "get_task", "put_task"] : List String) ∧
  dictGet? req.data "action" = some (.str req.action) ∧
  dictGet? req.data "apikey" = some (.str apikey)

theorem wf_of_runRequest (apikey : String) (net : Net) (action : String)
    (params : Dict) (req : Request)
    (hreq : req ∈ (runRequest apikey net action params).1)
    (hact : action ∈ (["info", "list_tasks", "get_task", "put_task"] : List String))
    (h1 : dictGet? params "action" = none) (h2 : dictGet? params "apikey" = none) :
    WfRequest apikey req := by
  simp only [runRequest, List.mem_singleton] at hreq
  subst hreq
  exact ⟨hact, (mkRequest_get_base apikey action params h1 h2).1,
    (mkRequest_get_base apikey action params h1 h2).2⟩

theorem wf_of_runPutTask (apikey : String) (net : Net) (td : Dict) (ja : Bool)
    (req : Request) (hreq : req ∈ (runPutTask apikey net td ja).1)
    (h1 : dictGet? td "action" = none) (h2 : dictGet? td "apikey" = none) :
    WfRequest apikey req := by
  refine wf_of_runRequest apikey net "put_task" (putTaskParams td ja) req hreq
    (by decide) ?_ ?_
  · rw [putTaskParams_get_ne _ _ _ (by decide)]
    exact h1
  · rw [putTaskParams_get_ne _ _ _ (by decide)]
    exact h2

/-- C9: for every tool name and argument mapping, every HTTP request that
`execute` issues to the remote task API carries an `action` field whose
value is one of `info`, `list_tasks`, `get_task`, `put_task`, and an
`apikey` field equal to the key the client was constructed with. -/
theorem C9_requests_carry_action_and_key :
    ∀ (apikey : String) (net : Net) (name : String) (args : Dict),
      ∀ req ∈ (execute apikey net name args).1, WfRequest apikey req := by
  intro apikey net name args req hreq
  by_cases h1 : name = "justmagic_info"
  · subst h1
    rw [execute_info_eq] at hreq
    exact wf_of_runRequest _ _ _ _ _ hreq (by decide) rfl rfl
  by_cases h2 : name = "justmagic_list_tasks"
  · subst h2
    rw [execute_list_tasks_eq] at hreq
    obtain ⟨limit, _, hreq⟩ := mem_bindArg _ _ _ hreq
    exact wf_of_runRequest _ _ _ _ _ hreq (by decide) rfl rfl
  by_cases h3 : name = "justmagic_get_task"
  · subst h3
    rw [execute_get_task_eq] at hreq
    obtain ⟨tid, _, hreq⟩ := mem_bindArg _ _ _ hreq
    exact wf_of_runRequest _ _ _ _ _ hreq (by decide) rfl rfl
  by_cases h4 : name = "justmagic_download_result"
  · subst h4
    rw [execute_download_eq] at hreq
    obtain ⟨tid, _, hreq⟩ := mem_bindArg _ _ _ hreq
    have hwf : WfRequest apikey (mkRequest apikey "get_task"
        [("tid", tid), ("mode", .str "csv"), ("system", .str "unix")]) := by
      refine ⟨?_, ?_, ?_⟩
      · show ("get_task" : String) ∈ (["info", "list_tasks", "get_task", "put_task"] : List String)
        decide
      · exact (mkRequest_get_base apikey "get_task"
          [("tid", tid), ("mode", PyVal.str "csv"), ("system", PyVal.str "unix")]
          (by rfl) (by rfl)).1
      · exact (mkRequest_get_base apikey "get_task"
          [("tid", tid), ("mode", PyVal.str "csv"), ("system", PyVal.str "unix")]
          (by rfl) (by rfl)).2
    cases hcsv : getTaskCsv net with
    | error e =>
      rw [hcsv] at hreq
      simp only [List.mem_singleton] at hreq
      subst hreq
      exact hwf
    | ok data =>
      rw [hcsv] at hreq
      by_cases hd : data = []
      · simp only [hd, if_true, eq_self_iff_true, List.mem_singleton] at hreq
        subst hreq
        exact hwf
      · simp only [hd, if_false] at hreq
        cases hint : getIntD args "max_rows" 100 with
        | ok maxRows =>
          rw [hint] at hreq
          simp only [List.mem_singleton] at hreq
          subst hreq
          exact hwf
        | error e =>
          rw [hint] at hreq
          simp only [List.mem_singleton] at hreq
          subst hreq
          exact hwf
  by_cases h5 : name = "justmagic_cluster"
  · subst h5
    rw [execute_cluster_eq] at hreq
    obtain ⟨queries, _, hreq⟩ := mem_bindArg _ _ _ hreq
    exact wf_of_runPutTask _ _ _ _ _ hreq
      (clusterTaskData_get_none args queries _ (by decide))
      (clusterTaskData_get_none args queries _ (by decide))
  by_cases h6 : name = "justmagic_text_analyzer"
  · subst h6
    rw [execute_text_analyzer_eq] at hreq
    obtain ⟨pages, _, hreq⟩ := mem_bindArg _ _ _ hreq
    obtain ⟨lines, _, hreq⟩ := mem_bindArg _ _ _ hreq
    exact wf_of_runPutTask _ _ _ _ _ hreq
      (textAnalyzerTaskData_get_none args lines _ (by decide))
      (textAnalyzerTaskData_get_none args lines _ (by decide))
  by_cases h7 : name = "justmagic_aquarelle"
  · subst h7
    rw [execute_aquarelle_eq] at hreq
    obtain ⟨keyword, _, hreq⟩ := mem_bindArg _ _ _ hreq
    obtain ⟨text, _, hreq⟩ := mem_bindArg _ _ _ hreq
    exact wf_of_runPutTask _ _ _ _ _ hreq
      (aquarelleTaskData_get_none args keyword text _ (by decide))
      (aquarelleTaskData_get_none args keyword text _ (by decide))
  by_cases h8 : name = "justmagic_aquarelle_generator"
  · subst h8
    rw [execute_aqua_gen_eq] at hreq
    obtain ⟨queries, _, hreq⟩ := mem_bindArg _ _ _ hreq
    exact wf_of_runPutTask _ _ _ _ _ hreq
      (aquaGenTaskData_get_none args queries _ (by decide))
      (aquaGenTaskData_get_none args queries _ (by decide))
  by_cases h9 : name = "justmagic_wordstat_frequency"
  · subst h9
    rw [execute_wsfreq_eq] at hreq
    obtain ⟨queries, _, hreq⟩ := mem_bindArg _ _ _ hreq
    exact wf_of_runPutTask _ _ _ _ _ hreq
      (wsfreqTaskData_get_none args queries _ (by decide))
      (wsfreqTaskData_get_none args queries _ (by decide))
  by_cases h10 : name = "justmagic_suggestions_parser"
  · subst h10
    rw [execute_sug_par_eq] at hreq
    obtain ⟨queries, _, hreq⟩ := mem_bindArg _ _ _ hreq
    obtain ⟨iterations, _, hreq⟩ := mem_bindArg _ _ _ hreq
    exact wf_of_runPutTask _ _ _ _ _ hreq
      (sugParTaskData_get_none args queries iterations _ (by decide))
      (sugParTaskData_get_none args queries iterations _ (by decide))
  by_cases h11 : name = "justmagic_thematic_classifier"
  · subst h11
    rw [execute_temakl_eq] at hreq
    obtain ⟨queries, _, hreq⟩ := mem_bindArg _ _ _ hreq
    exact wf_of_runPutTask _ _ _ _ _ hreq
      (temaklTaskData_get_none args queries _ (by decide))
      (temaklTaskData_get_none args queries _ (by decide))
  by_cases h12 : name = "justmagic_markers_online"
  · subst h12
    rw [execute_markers_eq] at hreq
    obtain ⟨pages, _, hreq⟩ := mem_bindArg _ _ _ hreq
    obtain ⟨baseQueries, _, hreq⟩ := mem_bindArg _ _ _ hreq
    obtain ⟨minPower, _, hreq⟩ := mem_bindArg _ _ _ hreq
    exact wf_of_runPutTask _ _ _ _ _ hreq
      (markersTaskData_get_none args pages baseQueries minPower _ (by decide))
      (markersTaskData_get_none args pages baseQueries minPower _ (by decide))
  by_cases h13 : name = "justmagic_expand_semantics"
  · subst h13
    rw [execute_grp_deep_eq] at hreq
    obtain ⟨queries, _, hreq⟩ := mem_bindArg _ _ _ hreq
    obtain ⟨depth, _, hreq⟩ := mem_bindArg _ _ _ hreq
    obtain ⟨minPower, _, hreq⟩ := mem_bindArg _ _ _ hreq
    exact wf_of_runPutTask _ _ _ _ _ hreq
      (grpDeepTaskData_get_none args queries depth minPower _ (by decide))
      (grpDeepTaskData_get_none args queries depth minPower _ (by decide))
  by_cases h14 : name = "justmagic_regex_search"
  · subst h14
    rw [execute_rexp_eq] at hreq
    obtain ⟨pat, _, hreq⟩ := mem_bindArg _ _ _ hreq
    exact wf_of_runPutTask _ _ _ _ _ hreq
      (rexpTaskData_get_none args pat _ (by decide))
      (rexpTaskData_get_none args pat _ (by decide))
  · exfalso
    have : (execute apikey net name args).1 = [] := by
      unfold execute
      simp only [h1, h2, h3, h4, h5, h6, h7, h8, h9, h10, h11, h12, h13, h14,
        if_false]
    rw [this] at hreq
    exact List.not_mem_nil req hreq

/-- Concrete instance of the request well-formedness theorem. -/
theorem C9_requests_carry_action_and_key_witness :
    WfRequest "key" (mkRequest "key" "info" []) :=
  C9_requests_carry_action_and_key "key" netOk "justmagic_info" []
    (mkRequest "key" "info" []) (by decide)

/-! ## Cluster payload fields (C7) -/

theorem clusterTaskData_get_google (args : Dict) (queries : List String) :
    dictGet? (clusterTaskData args queries) "google_lr" =
      match dictGet? args "google_lr" with
      | some g =>
        if dictGet? args "search_engine" = some (.str "google") ∧ pyTruthy g = true
        then some g else none
      | none => none := by
  unfold clusterTaskData
  rw [addIfTruthy_get_ne _ _ _ _ _ (by decide), addIfTruthy_get_ne _ _ _ _ _ (by decide),
      addFlagIfTruthy_get_ne _ _ _ _ _ (by decide)]
  cases hg : dictGet? args "google_lr" with
  | none => simp [dictGet?_append, dictGet?_cons, dictGet?_nil]
  | some g =>
    by_cases hc : dictGet? args "search_engine" = some (PyVal.str "google") ∧
        pyTruthy g = true <;>
      simp [hc, dictGet?_append, dictGet?_cons, dictGet?_nil]

theorem clusterTaskData_get_ya (args : Dict) (queries : List String) :
    dictGet? (clusterTaskData args queries) "ya_lr" =
      match dictGet? args "google_lr" with
      | some g =>
        if dictGet? args "search_engine" = some (.str "google") ∧ pyTruthy g = true
        then none else some (dictGetD args "region" (.int 213))
      | none => some (dictGetD args "region" (.int 213)) := by
  unfold clusterTaskData
  rw [addIfTruthy_get_ne _ _ _ _ _ (by decide), addIfTruthy_get_ne _ _ _ _ _ (by decide),
      addFlagIfTruthy_get_ne _ _ _ _ _ (by decide)]
  cases hg : dictGet? args "google_lr" with
  | none => simp [dictGet?_append, dictGet?_cons, dictGet?_nil]
  | some g =>
    by_cases hc : dictGet? args "search_engine" = some (PyVal.str "google") ∧
        pyTruthy g = true <;>
      simp [hc, dictGet?_append, dictGet?_cons, dictGet?_nil]

theorem clusterTaskData_get_s_std (args : Dict) (queries : List String) :
    dictGet? (clusterTaskData args queries) "s_std" =
      if truthyOpt (dictGet? args "collect_frequency") then some (.int 1) else none := by
  unfold clusterTaskData
  rw [addIfTruthy_get_ne _ _ _ _ _ (by decide), addIfTruthy_get_ne _ _ _ _ _ (by decide)]
  apply addFlagIfTruthy_get_self
  cases hg : dictGet? args "google_lr" with
  | none => simp [dictGet?_append, dictGet?_cons, dictGet?_nil]
  | some g =>
    by_cases hc : dictGet? args "search_engine" = some (PyVal.str "google") ∧
        pyTruthy g = true <;>
      simp [hc, dictGet?_append, dictGet?_cons, dictGet?_nil]

theorem clusterTaskData_get_label (args : Dict) (queries : List String) :
    dictGet? (clusterTaskData args queries) "label" =
      match dictGet? args "label" with
      | some v => if pyTruthy v then some v else none
      | none => none := by
  unfold clusterTaskData
  rw [addIfTruthy_get_ne _ _ _ _ _ (by decide)]
  apply addIfTruthy_get_self
  rw [addFlagIfTruthy_get_ne _ _ _ _ _ (by decide)]
  cases hg : dictGet? args "google_lr" with
  | none => simp [dictGet?_append, dictGet?_cons, dictGet?_nil]
  | some g =>
    by_cases hc : dictGet? args "search_engine" = some (PyVal.str "google") ∧
        pyTruthy g = true <;>
      simp [hc, dictGet?_append, dictGet?_cons, dictGet?_nil]

theorem clusterTaskData_get_domain (args : Dict) (queries : List String) :
    dictGet? (clusterTaskData args queries) "domain" =
      match dictGet? args "domain" with
      | some v => if pyTruthy v then some v else none
      | none => none := by
  unfold clusterTaskData
  apply addIfTruthy_get_self
  rw [addIfTruthy_get_ne _ _ _ _ _ (by decide),
      addFlagIfTruthy_get_ne _ _ _ _ _ (by decide)]
  cases hg : dictGet? args "google_lr" with
  | none => simp [dictGet?_append, dictGet?_cons, dictGet?_nil]
  | some g =>
    by_cases hc : dictGet? args "search_engine" = some (PyVal.str "google") ∧
        pyTruthy g = true <;>
      simp [hc, dictGet?_append, dictGet?_cons, dictGet?_nil]

/-- C7: the cluster payload carries `google_lr` (and no `ya_lr`) exactly
when the search engine is `"google"` and a truthy `google_lr` value is
supplied; otherwise it carries `ya_lr` with the region code (default
213).  The optional `label`, `domain` and collect-frequency (`s_std`)
fields appear only when their arguments are present and truthy.
Clustering `["buy shoes", "shoe store"]` with all defaults submits one
`put_task` request with task `grp_onl`, `data = "buy shoes\nshoe store"`,
`search_engine = "yandex"`, `ya_lr = 213`, `lang = "ru"`. -/
theorem C7_cluster_payload :
    (∀ (apikey : String) (net : Net) (args : Dict) (tr : List Request) (res : Dict),
      execute apikey net "justmagic_cluster" args = (tr, .ok res) →
      ∀ req ∈ tr,
        ((∀ g : PyVal, dictGet? args "google_lr" = some g →
            dictGet? args "search_engine" = some (.str "google") →
            pyTruthy g = true →
            dictGet? req.data "google_lr" = some g ∧
            dictGet? req.data "ya_lr" = none) ∧
         (¬ (dictGet? args "search_engine" = some (.str "google") ∧
             truthyOpt (dictGet? args "google_lr") = true) →
            dictGet? req.data "ya_lr" = some (dictGetD args "region" (.int 213)) ∧
            dictGet? req.data "google_lr" = none) ∧
         (dictGet? req.data "s_std" =
           if truthyOpt (dictGet? args "collect_frequency")
           then some (.int 1) else none) ∧
         (dictGet? req.data "label" =
           match dictGet? args "label" with
           | some v => if pyTruthy v then some v else none
           | none => none) ∧
         (dictGet? req.data "domain" =
           match dictGet? args "domain" with
           | some v => if pyTruthy v then some v else none
           | none => none))) ∧
    execute "key" netOk "justmagic_cluster"
        [("queries", .list ["buy shoes", "shoe store"])] =
      ([mkRequest "key" "put_task"
          [("task", .str "grp_onl"), ("data", .str "buy shoes\nshoe store"),
           ("search_engine", .str "yandex"), ("lang", .str "ru"),
           ("ya_lr", .int 213)]],
       .ok [("tid", .int 12345)]) := by
  constructor
  · intro apikey net args tr res hexec req hreq
    rw [execute_cluster_eq] at hexec
    obtain ⟨queries, _, hexec⟩ := bindArg_ok _ _ _ _ hexec
    have htr : tr = [mkRequest apikey "put_task"
        (putTaskParams (clusterTaskData args queries)
          (truthyOpt (dictGet? args "just_ask")))] :=
      (congrArg Prod.fst hexec).symm
    rw [htr] at hreq
    simp only [List.mem_singleton] at hreq
    subst hreq
    have hfield : ∀ k : String, k ≠ "action" → k ≠ "apikey" → k ≠ "justask" →
        dictGet? (mkRequest apikey "put_task"
          (putTaskParams (clusterTaskData args queries)
            (truthyOpt (dictGet? args "just_ask")))).data k =
        dictGet? (clusterTaskData args queries) k := by
      intro k ha hb hc
      rw [mkRequest_get_ne _ _ _ _ ha hb, putTaskParams_get_ne _ _ _ hc]
    refine ⟨?_, ?_, ?_, ?_, ?_⟩
    · intro g hg hse htru
      constructor
      · rw [hfield _ (by decide) (by decide) (by decide), clusterTaskData_get_google,
            hg]
        simp [hse, htru]
      · rw [hfield _ (by decide) (by decide) (by decide), clusterTaskData_get_ya, hg]
        simp [hse, htru]
    · intro hneg
      cases hg : dictGet? args "google_lr" with
      | none =>
        constructor
        · rw [hfield _ (by decide) (by decide) (by decide), clusterTaskData_get_ya, hg]
        · rw [hfield _ (by decide) (by decide) (by decide),
              clusterTaskData_get_google, hg]
      | some g =>
        rw [hg] at hneg
        have hc : ¬ (dictGet? args "search_engine" = some (.str "google") ∧
            pyTruthy g = true) := by
          intro hcon
          exact hneg ⟨hcon.1, by simpa [truthyOpt] using hcon.2⟩
        constructor
        · rw [hfield _ (by decide) (by decide) (by decide), clusterTaskData_get_ya, hg]
          simp [hc]
        · rw [hfield _ (by decide) (by decide) (by decide),
              clusterTaskData_get_google, hg]
          simp [hc]
    · rw [hfield _ (by decide) (by decide) (by decide), clusterTaskData_get_s_std]
    · rw [hfield _ (by decide) (by decide) (by decide), clusterTaskData_get_label]
    · rw [hfield _ (by decide) (by decide) (by decide), clusterTaskData_get_domain]
  · rfl

/-- The request issued by the default-argument cluster scenario. -/
def scenario1Req : Request :=
  mkRequest "key" "put_task"
    [("task", .str "grp_onl"), ("data", .str "buy shoes\nshoe store"),
     ("search_engine", .str "yandex"), ("lang", .str "ru"), ("ya_lr", .int 213)]

/-- Concrete instance of the cluster-payload theorem. -/
theorem C7_cluster_payload_witness :
    dictGet? scenario1Req.data "ya_lr" = some (.int 213) ∧
    dictGet? scenario1Req.data "google_lr" = none := by
  have h := (C7_cluster_payload.1 "key" netOk
    [("queries", PyVal.list ["buy shoes", "shoe store"])]
    [scenario1Req] [("tid", PyVal.int 12345)] C7_cluster_payload.2
    scenario1Req (by decide)).2.1 (by decide)
  exact ⟨h.1, h.2⟩

/-! ## Line counts of the text analyzer and marker distributor (C6) -/

/-- The number of lines of a (non-empty) text: newline count plus one. -/
def lineCount (s : String) : Nat := s.data.count '\n' + 1

theorem count_joinStrs (ls : List String) (h1 : ls ≠ [])
    (h2 : ∀ l ∈ ls, '\n' ∉ l.data) :
    (joinStrs "\n" ls).data.count '\n' = ls.length - 1 := by
  induction ls with
  | nil => exact absurd rfl h1
  | cons x xs ih =>
    cases xs with
    | nil =>
      simp only [joinStrs, List.length_singleton]
      have hx : '\n' ∉ x.data := h2 x (List.mem_singleton_self x)
      simp [List.count_eq_zero.mpr hx]
    | cons y ys =>
      have hx : '\n' ∉ x.data := h2 x (List.mem_cons_self x (y :: ys))
      have hrest := ih (List.cons_ne_nil y ys)
        (fun l hl => h2 l (List.mem_cons_of_mem x hl))
      show ((x ++ "\n" ++ joinStrs "\n" (y :: ys)).data.count '\n') =
        (x :: y :: ys).length - 1
      rw [String.data_append, String.data_append, List.count_append,
          List.count_append, hrest, List.count_eq_zero.mpr hx]
      simp [List.length_cons]
      omega

theorem taLines_spec (ps : List Page) :
    ∀ lines, taLines ps = .ok lines →
      lines.length = (ps.map (fun p => (p.queries.getD []).length)).sum ∧
      ∀ l ∈ lines, ∃ p ∈ ps, ∃ q ∈ p.queries.getD [], l = p.url ++ "\t" ++ q := by
  induction ps with
  | nil =>
    intro lines h
    simp only [taLines] at h
    cases h
    simp
  | cons p ps ih =>
    intro lines h
    simp only [taLines] at h
    cases hq : p.queries with
    | none => rw [hq] at h; cases h
    | some qs =>
      rw [hq] at h
      cases hrest : taLines ps with
      | error e => rw [hrest] at h; cases h
      | ok rest =>
        rw [hrest] at h
        cases h
        obtain ⟨ihlen, ihmem⟩ := ih rest hrest
        constructor
        · simp [List.length_append, List.length_map, ihlen, hq]
        · intro l hl
          rw [List.mem_append] at hl
          cases hl with
          | inl hl =>
            obtain ⟨q, hqmem, hql⟩ := List.mem_map.mp hl
            exact ⟨p, List.mem_cons_self p ps, q, by simp [hq, hqmem], hql.symm⟩
          | inr hl =>
            obtain ⟨p', hp', q, hq', hl'⟩ := ihmem l hl
            exact ⟨p', List.mem_cons_of_mem p hp', q, hq', hl'⟩

/-- C6: the text-analyzer data lines are one tab-delimited `(url, query)`
pair per query, `sum(ki)` of them in total, while the marker-distributor
data has exactly one line per page; joining newline-free lines with
`"\n"` produces a text with exactly that many lines, and the joined
texts are what the two tools put into the `data` wire field. -/
theorem C6_line_counts :
    (∀ (ps : List Page) (lines : List String),
      taLines ps = .ok lines →
      (lines.length = (ps.map (fun p => (p.queries.getD []).length)).sum ∧
       ∀ l ∈ lines, ∃ p ∈ ps, ∃ q ∈ p.queries.getD [], l = p.url ++ "\t" ++ q)) ∧
    (∀ ps : List Page, (markLines ps).length = ps.length) ∧
    (∀ ls : List String, ls ≠ [] → (∀ l ∈ ls, '\n' ∉ l.data) →
      lineCount (joinStrs "\n" ls) = ls.length) ∧
    (∀ (apikey : String) (net : Net) (args : Dict) (pages : List Page)
       (lines : List String) (tr : List Request) (res : Dict),
      getReqPages args "pages" = .ok pages →
      taLines pages = .ok lines →
      execute apikey net "justmagic_text_analyzer" args = (tr, .ok res) →
      ∀ req ∈ tr, dictGet? req.data "data" = some (.str (joinStrs "\n" lines))) ∧
    (∀ (apikey : String) (net : Net) (args : Dict) (pages : List Page)
       (tr : List Request) (res : Dict),
      getReqPages args "pages" = .ok pages →
      execute apikey net "justmagic_markers_online" args = (tr, .ok res) →
      ∀ req ∈ tr,
        dictGet? req.data "data" = some (.str (joinStrs "\n" (markLines pages)))) := by
  refine ⟨fun ps => taLines_spec ps, ?_, ?_, ?_, ?_⟩
  · intro ps
    simp [markLines]
  · intro ls h1 h2
    unfold lineCount
    rw [count_joinStrs ls h1 h2]
    have : ls.length ≠ 0 := fun h0 => h1 (List.length_eq_zero.mp h0)
    omega
  · intro apikey net args pages lines tr res hp hl hexec req hreq
    rw [execute_text_analyzer_eq] at hexec
    obtain ⟨pages', hp', hexec⟩ := bindArg_ok _ _ _ _ hexec
    rw [hp] at hp'
    cases hp'
    obtain ⟨lines', hl', hexec⟩ := bindArg_ok _ _ _ _ hexec
    rw [hl] at hl'
    cases hl'
    have htr : tr = [mkRequest apikey "put_task"
        (putTaskParams (textAnalyzerTaskData args lines)
          (truthyOpt (dictGet? args "just_ask")))] :=
      (congrArg Prod.fst hexec).symm
    rw [htr] at hreq
    simp only [List.mem_singleton] at hreq
    subst hreq
    rw [mkRequest_get_ne _ _ _ _ (by decide) (by decide),
        putTaskParams_get_ne _ _ _ (by decide)]
    rfl
  · intro apikey net args pages tr res hp hexec req hreq
    rw [execute_markers_eq] at hexec
    obtain ⟨pages', hp', hexec⟩ := bindArg_ok _ _ _ _ hexec
    rw [hp] at hp'
    cases hp'
    obtain ⟨baseQueries, _, hexec⟩ := bindArg_ok _ _ _ _ hexec
    obtain ⟨minPower, _, hexec⟩ := bindArg_ok _ _ _ _ hexec
    have htr : tr = [mkRequest apikey "put_task"
        (putTaskParams (markersTaskData args pages baseQueries minPower)
          (truthyOpt (dictGet? args "just_ask")))] :=
      (congrArg Prod.fst hexec).symm
    rw [htr] at hreq
    simp only [List.mem_singleton] at hreq
    subst hreq
    rw [mkRequest_get_ne _ _ _ _ (by decide) (by decide),
        putTaskParams_get_ne _ _ _ (by decide)]
    rfl

/-- The pages used by the line-count witness: two pages carrying two and
one queries. -/
def witnessPages : List Page := [⟨"u1", some ["q1", "q2"]⟩, ⟨"u2", some ["q3"]⟩]

/-- Concrete instance of the line-count theorem. -/
theorem C6_line_counts_witness :
    (["u1\tq1", "u1\tq2", "u2\tq3"] : List String).length =
      (witnessPages.map (fun p => (p.queries.getD []).length)).sum ∧
    (markLines witnessPages).length = witnessPages.length ∧
    lineCount (joinStrs "\n" ["u1\tq1", "u1\tq2", "u2\tq3"]) = 3 :=
  ⟨(C6_line_counts.1 witnessPages ["u1\tq1", "u1\tq2", "u2\tq3"] rfl).1,
   C6_line_counts.2.1 witnessPages,
   C6_line_counts.2.2.1 ["u1\tq1", "u1\tq2", "u2\tq3"] (by decide) (by decide)⟩
